import Mathlib

/-!
Shallow embedding of `flask-openapi-validator` (files
`src/flask_openapi_validator/base.py`, `__init__.py`, `validators.py`).

Python values coming out of `json.load`/`json.loads` are modelled by the
inductive `Json` type.  Python exceptions are modelled by `Except PyError`:
a statement `raise X` becomes `.error (PyError.x …)`, and operations that can
raise (`d[k]`, `d.get k`, iteration, `str.startswith` with a non-string
argument) return `Except PyError _`.  Python truthiness (`if not url`,
`if not schema`, `if errors`) is modelled explicitly by `Json.truthy` and by
pattern matching on `Option`.
-/

set_option autoImplicit false

/-- JSON values, as produced by Python's `json` module.  Numbers are kept as
integers: no claim depends on floating point, and none of the embedded code
paths inspects numeric values. -/
inductive Json where
  | null
  | bool (b : Bool)
  | num (n : Int)
  | str (s : String)
  | arr (xs : List Json)
  | obj (kvs : List (String × Json))

/-- Python exceptions that the embedded code can raise. -/
inductive PyError where
  | keyError (k : String)
  | typeError
  | attributeError
  | valueError (msg : String)
  | notImplementedError
  deriving DecidableEq, Repr

/-- First-match association-list lookup, the model of Python dict lookup
(`json` object keys are unique after parsing, so first match is the match). -/
def alistLookup (k : String) : List (String × Json) → Option Json
  | [] => none
  | (k2, v) :: rest => if k2 = k then some v else alistLookup k rest

/-- Python `j[k]` on a JSON value: a dict lookup that raises `KeyError k` when
the key is absent, and `TypeError` when `j` is not a dict (indexing a list
with a string, or subscripting a scalar). -/
def getItem (j : Json) (k : String) : Except PyError Json :=
  match j with
  | .obj kvs =>
    match alistLookup k kvs with
    | some v => .ok v
    | none => .error (.keyError k)
  | _ => .error .typeError

/-- Python `j.get(k, None)` on a JSON value: `AttributeError` when `j` is not
a dict. -/
def dictGet (j : Json) (k : String) : Except PyError (Option Json) :=
  match j with
  | .obj kvs => .ok (alistLookup k kvs)
  | _ => .error .attributeError

/-- Python truthiness of a JSON value (`None`, `False`, `0`, `""`, `[]`, `{}`
are falsy). -/
def Json.truthy : Json → Bool
  | .null => false
  | .bool b => b
  | .num n => decide (n ≠ 0)
  | .str s => decide (s ≠ "")
  | .arr xs => !xs.isEmpty
  | .obj kvs => !kvs.isEmpty

/-- Python `for x in j`: lists yield their elements, dicts their keys,
strings their characters (as one-character strings); other values are not
iterable and raise `TypeError`. -/
def pyIter : Json → Except PyError (List Json)
  | .arr xs => .ok xs
  | .obj kvs => .ok (kvs.map (fun kv => Json.str kv.1))
  | .str s => .ok (s.data.map (fun c => Json.str ⟨[c]⟩))
  | _ => .error .typeError

/-- Leading-sequence test on character lists, the model of Python
`s.startswith(pre)` (second argument leads the first). -/
def charsLeading : List Char → List Char → Bool
  | [], _ => true
  | _ :: _, [] => false
  | c :: cs, d :: ds => c = d && charsLeading cs ds

/-- Python `s.startswith(pre)`. -/
def pyStartsWith (s pre : String) : Bool := charsLeading pre.data s.data

/-- Python `len(s)` (code points). -/
def pyLen (s : String) : Nat := s.data.length

/-- Python `s[n:]` (slicing by code points). -/
def pySliceFrom (s : String) (n : Nat) : String := ⟨s.data.drop n⟩

/-- Python `s.lower()`, restricted to its ASCII behaviour (HTTP methods in
the embedded code are ASCII, where CPython and this model agree). -/
def pyLower (s : String) : String := ⟨s.data.map Char.toLower⟩

/-- Python truthiness of a `str | None` value. -/
def strOptTruthy : Option String → Bool
  | none => false
  | some s => decide (s ≠ "")

/-- Which dataclass a `ValidationResult` was constructed as.  Python keeps
the subclass identity (`type(result)` is observable), so the embedding
records it alongside the fields. -/
inductive RKind where
  | plain
  | invalidRequestPath
  | invalidRequestMethod
  | invalidRequestBody
  deriving DecidableEq, Repr

/-- `base.ValidationResult`: status is `"success"` or `"error"`, data is any
value (here a JSON value; Python `None` is `Json.null`). -/
structure ValidationResult where
  kind : RKind
  status : String
  data : Json

/-- `InvalidRequestPath(status, data)` from `__init__.py`. -/
def InvalidRequestPath (status : String) (data : Json) : ValidationResult :=
  ⟨.invalidRequestPath, status, data⟩

/-- `InvalidRequestMethod(status, data)` from `__init__.py`. -/
def InvalidRequestMethod (status : String) (data : Json) : ValidationResult :=
  ⟨.invalidRequestMethod, status, data⟩

/-- `InvalidRequestBody(status, data)` from `__init__.py`. -/
def InvalidRequestBody (status : String) (data : Json) : ValidationResult :=
  ⟨.invalidRequestBody, status, data⟩

/-- The Flask request object, with every attribute the repository's code
could consult.  `validate` reads only `root_url`, `method` and `get_json`;
`path` and `url` are carried so that independence from them is a statement,
not a tautology. -/
structure FlaskRequest where
  root_url : String
  path : String
  url : String
  method : String
  get_json : Json

/-- `OpenAPIValidator.__init__`: `fs` models reading a file
(`open(path)` + `f.read()`), `ps` models `json.load` / `json.loads`
(CPython's `json.load(f)` is `json.loads(f.read())`, one decoder for both
branches).  Returns the loaded schema, or the raised exception.  `if path:`
and `elif json_str:` use Python truthiness on `str | None`. -/
def validator_init (fs : String → Except PyError String)
    (ps : String → Except PyError Json)
    (path json_str : Option String) : Except PyError Json :=
  if strOptTruthy path then
    match fs (path.getD "") with
    | .error e => .error e
    | .ok txt => ps txt
  else if strOptTruthy json_str then
    ps (json_str.getD "")
  else
    .error (.valueError "No schema provided")

/-- `OpenAPIValidator._get_path_schema` (dead code: never called by
`validate`). -/
def get_path_schema (schema : Json) (path method : String) :
    Except PyError Json :=
  match getItem schema "paths" with
  | .error e => .error e
  | .ok paths =>
    match getItem paths path with
    | .error e => .error e
    | .ok path_spec => getItem path_spec (pyLower method)

/-- `OpenAPIValidator._get_server_url`: linear scan over the server entries,
returning the first `server["url"]` that the request URL starts with, `None`
when the scan finds no match.  `server["url"]` raises `KeyError` when absent
and `url.startswith(x)` raises `TypeError` when `x` is not a string. -/
def get_server_url (url : String) : List Json → Except PyError (Option String)
  | [] => .ok none
  | server :: rest =>
    match getItem server "url" with
    | .error e => .error e
    | .ok (.str s) =>
      if pyStartsWith url s then .ok (some s) else get_server_url url rest
    | .ok _ => .error .typeError

/-- `OpenAPIValidator._get_request_schema`: note the source looks up the key
`"paths"` inside the value it is given (`request_schema["paths"]`) before the
method lookup. -/
def get_request_schema (method : String) (request_schema : Json) :
    Except PyError (Option Json) :=
  match getItem request_schema "paths" with
  | .error e => .error e
  | .ok p => dictGet p (pyLower method)

/-- `OpenAPIValidator._validate_request_body`: the source body is
`raise NotImplementedError`. -/
def validate_request_body (_request_body _request_schema : Json) :
    Except PyError Json :=
  .error .notImplementedError

/-- `OpenAPIValidator.validate`, with `schema` standing for `self.schema`.
Faithful to the source order: `self.schema["servers"]`, the server scan,
`if not url`, the slice `value.root_url[len(url):]`,
`self.schema["paths"][path]`, `_get_request_schema`, `if not schema`,
`value.get_json()` then `schema["requestBody"]` then the body-validation
call, `if errors`. -/
def validate (schema : Json) (value : FlaskRequest) :
    Except PyError ValidationResult :=
  match getItem schema "servers" with
  | .error e => .error e
  | .ok serversJ =>
    match pyIter serversJ with
    | .error e => .error e
    | .ok servers =>
      match get_server_url value.root_url servers with
      | .error e => .error e
      | .ok none =>
        .ok (InvalidRequestPath "error" (.str "Incorrect request path prefix"))
      | .ok (some u) =>
        if u = "" then
          .ok (InvalidRequestPath "error" (.str "Incorrect request path prefix"))
        else
          match getItem schema "paths" with
          | .error e => .error e
          | .ok pathsJ =>
            match getItem pathsJ (pySliceFrom value.root_url (pyLen u)) with
            | .error e => .error e
            | .ok pathEntry =>
              match get_request_schema value.method pathEntry with
              | .error e => .error e
              | .ok none =>
                .ok (InvalidRequestMethod "error" (.str "Invalid request method"))
              | .ok (some sch) =>
                if sch.truthy = false then
                  .ok (InvalidRequestMethod "error" (.str "Invalid request method"))
                else
                  match getItem sch "requestBody" with
                  | .error e => .error e
                  | .ok rbody =>
                    match validate_request_body value.get_json rbody with
                    | .error e => .error e
                    | .ok errors =>
                      if errors.truthy then
                        .ok (InvalidRequestBody "error" errors)
                      else
                        .ok ⟨.plain, "success", .null⟩

/-- `validate` run against a construction outcome: a raised construction
error propagates, otherwise the constructed validator's `validate` runs. -/
def validateVia (constructed : Except PyError Json) (r : FlaskRequest) :
    Except PyError ValidationResult :=
  match constructed with
  | .error e => .error e
  | .ok schema => validate schema r

/-- `validators.email`: the source body is `raise NotImplementedError`. -/
def email (_value : String) : Except PyError ValidationResult :=
  .error .notImplementedError

/-- `validators.VALIDATORS`. -/
def VALIDATORS : List (String → Except PyError ValidationResult) := [email]

/-- `validators.get_validator`: returns the `email` function for format
`"email"`, raises a bare `ValueError` otherwise. -/
def get_validator (format : String) :
    Except PyError (String → Except PyError ValidationResult) :=
  if format = "email" then .ok email else .error (.valueError "")

/-- The `"url"` field of a server entry, when it is a string. -/
def urlOf (j : Json) : Option String :=
  match getItem j "url" with
  | .ok (.str u) => some u
  | _ => none

/-! Helper lemmas shared by several theorems. -/

/-- On a list of server entries that each carry a string `"url"`, the scan of
`_get_server_url` computes the first `"url"` value that `base` starts with. -/
theorem get_server_url_eq_find (base : String) (ss : List Json)
    (hw : ∀ s ∈ ss, ∃ u, getItem s "url" = .ok (.str u)) :
    get_server_url base ss
      = .ok ((ss.filterMap urlOf).find? (fun u => pyStartsWith base u)) := by
  induction ss with
  | nil => rfl
  | cons s rest ih =>
    obtain ⟨u, hu⟩ := hw s (List.mem_cons_self s rest)
    have hurl : urlOf s = some u := by simp [urlOf, hu]
    by_cases hsw : pyStartsWith base u
    · simp [get_server_url, hu, hsw, hurl]
    · simp [get_server_url, hu, hsw, hurl,
        ih (fun t ht => hw t (List.mem_cons_of_mem s ht))]

/-! Theorems for the claims. -/

/-- C6: on any list of server entries (each with a string `url`) and any
base URL, `_get_server_url` returns the url of the first entry in document
order whose url the base URL starts with — a linear scan with no
longest-match preference — and returns `None` exactly when no entry's url
leads the base URL. -/
theorem get_server_url_first_match_linear_scan (base : String) (ss : List Json)
    (hw : ∀ s ∈ ss, ∃ u, getItem s "url" = .ok (.str u)) :
    get_server_url base ss
        = .ok ((ss.filterMap urlOf).find? (fun u => pyStartsWith base u)) ∧
      (get_server_url base ss = .ok none ↔
        ∀ u ∈ ss.filterMap urlOf, pyStartsWith base u = false) := by
  have h := get_server_url_eq_find base ss hw
  refine ⟨h, ?_⟩
  rw [h]
  simp only [Except.ok.injEq, List.find?_eq_none, Bool.not_eq_true]

/-- C6 witness: with servers `https://a` then `https://a/b`, the base URL
`https://a/b/c` matches the first entry, not the longer second one. -/
theorem get_server_url_first_match_linear_scan_witness :
    get_server_url "https://a/b/c"
        [Json.obj [("url", Json.str "https://a")],
         Json.obj [("url", Json.str "https://a/b")]]
      = .ok (some "https://a") := by
  have h := (get_server_url_first_match_linear_scan "https://a/b/c"
      [Json.obj [("url", Json.str "https://a")],
       Json.obj [("url", Json.str "https://a/b")]]
      (by
        intro s hs
        simp only [List.mem_cons, List.not_mem_nil, or_false] at hs
        rcases hs with h | h <;> subst h <;> exact ⟨_, rfl⟩)).1
  rw [h]
  rfl

/-- C3: when the request's base URL starts with none of the configured
server URLs, `validate` returns `InvalidRequestPath` with status `"error"`
(the message is the call-site one, `"Incorrect request path prefix"`). -/
theorem validate_no_server_match_invalid_path (schema : Json) (ss : List Json)
    (r : FlaskRequest)
    (hs : getItem schema "servers" = .ok (.arr ss))
    (hw : ∀ s ∈ ss, ∃ u, getItem s "url" = .ok (.str u) ∧
      pyStartsWith r.root_url u = false) :
    validate schema r
      = .ok (InvalidRequestPath "error" (.str "Incorrect request path prefix")) := by
  have hnone : get_server_url r.root_url ss = .ok none := by
    clear hs
    induction ss with
    | nil => rfl
    | cons s rest ih =>
      obtain ⟨u, hu, hf⟩ := hw s (List.mem_cons_self s rest)
      simp [get_server_url, hu, hf,
        ih (fun t ht => hw t (List.mem_cons_of_mem s ht))]
  simp [validate, hs, pyIter, hnone]

/-- Concrete schema for the C3 witness: one server, `https://a.io`. -/
def c3schema : Json :=
  .obj [("servers", .arr [.obj [("url", .str "https://a.io")]]),
        ("paths", .obj [])]

/-- Concrete request for the C3 witness: base URL on a host that matches no
configured server. -/
def c3req : FlaskRequest :=
  ⟨"https://z.org/x", "/x", "https://z.org/x", "GET", .obj []⟩

/-- C3 witness: a request to `https://z.org/x` against a schema whose only
server is `https://a.io` gets `InvalidRequestPath`. -/
theorem validate_no_server_match_invalid_path_witness :
    validate c3schema c3req
      = .ok (InvalidRequestPath "error" (.str "Incorrect request path prefix")) :=
  validate_no_server_match_invalid_path c3schema
    [.obj [("url", .str "https://a.io")]] c3req rfl
    (by
      intro s hs
      simp only [List.mem_cons, List.not_mem_nil, or_false] at hs
      subst hs
      exact ⟨"https://a.io", rfl, rfl⟩)

/-- C7: constructing the validator with neither a file path nor inline
document text raises `ValueError("No schema provided")` at construction
time, for every file system and every JSON decoder. -/
theorem init_without_source_raises_value_error
    (fs : String → Except PyError String) (ps : String → Except PyError Json) :
    validator_init fs ps none none
      = .error (.valueError "No schema provided") := rfl

/-- C8: `get_validator` returns the `email` function for the format name
`"email"`, and raises `ValueError` for every other format name. -/
theorem get_validator_email_or_value_error :
    get_validator "email" = .ok email ∧
      ∀ f, f ≠ "email" → get_validator f = .error (.valueError "") := by
  refine ⟨rfl, ?_⟩
  intro f hf
  simp [get_validator, hf]

/-- C8 witness: the format name `"uuid"` is rejected with `ValueError`. -/
theorem get_validator_email_or_value_error_witness :
    get_validator "uuid" = .error (.valueError "") :=
  get_validator_email_or_value_error.2 "uuid" (by decide)

/-- C9: when the file at `p` holds the text `t`, a validator constructed
from the file path `p` and a validator constructed from `t` supplied inline
give identical validation outcomes for every request (both source strings
nonempty, as Python truthiness requires for either branch to be taken). -/
theorem init_path_text_round_trip
    (fs : String → Except PyError String) (ps : String → Except PyError Json)
    (p t : String) (hp : p ≠ "") (ht : t ≠ "") (hfs : fs p = .ok t)
    (r : FlaskRequest) :
    validateVia (validator_init fs ps (some p) none) r
      = validateVia (validator_init fs ps none (some t)) r := by
  simp [validator_init, strOptTruthy, hp, ht, hfs]

/-- Concrete request for the C9 witness. -/
def c9req : FlaskRequest :=
  ⟨"https://a.io/u", "/u", "https://a.io/u", "POST", .obj []⟩

/-- C9 witness: a one-file file system holding `"null"` under
`"openapi.json"`, with the decoder that parses `"null"` to JSON null. -/
theorem init_path_text_round_trip_witness :
    validateVia (validator_init (fun _ => .ok "null") (fun _ => .ok .null)
        (some "openapi.json") none) c9req
      = validateVia (validator_init (fun _ => .ok "null") (fun _ => .ok .null)
        none (some "null")) c9req :=
  init_path_text_round_trip (fun _ => .ok "null") (fun _ => .ok .null)
    "openapi.json" "null" (by decide) (by decide) rfl c9req

/-- C10: for a fixed schema, `validate` reads only the request's root URL,
method and parsed JSON body — two requests agreeing on those three get the
same outcome, whatever their `path` and `url` attributes. -/
theorem validate_reads_only_root_method_body
    (schema : Json) (r1 r2 : FlaskRequest)
    (h1 : r1.root_url = r2.root_url) (h2 : r1.method = r2.method)
    (h3 : r1.get_json = r2.get_json) :
    validate schema r1 = validate schema r2 := by
  obtain ⟨a1, b1, c1, d1, e1⟩ := r1
  obtain ⟨a2, b2, c2, d2, e2⟩ := r2
  simp only at h1 h2 h3
  subst h1
  subst h2
  subst h3
  rfl

/-- Schema for the C10 witness. -/
def c10schema : Json :=
  .obj [("servers", .arr [.obj [("url", .str "https://a.io")]]),
        ("paths", .obj [("/u", .obj [("post", .obj [])])])]

/-- First request for the C10 witness. -/
def c10reqA : FlaskRequest :=
  ⟨"https://a.io/u", "/u", "https://a.io/u", "POST", .null⟩

/-- Second request for the C10 witness: same root URL, method and body, but
different `path` and `url` attributes. -/
def c10reqB : FlaskRequest :=
  ⟨"https://a.io/u", "/u/9", "https://a.io/u/9?q=1", "POST", .null⟩

/-- C10 witness: the two requests above validate identically. -/
theorem validate_reads_only_root_method_body_witness :
    validate c10schema c10reqA = validate c10schema c10reqB :=
  validate_reads_only_root_method_body c10schema c10reqA c10reqB rfl rfl rfl

/-- Schema for C1's failing input: server `https://a.io`, one path `/u`. -/
def c1schema : Json :=
  .obj [("servers", .arr [.obj [("url", .str "https://a.io")]]),
        ("paths", .obj [("/u", .obj [("post",
          .obj [("requestBody", .obj [])])])])]

/-- Request for C1's failing input: matching server prefix, but the stripped
path `/x` is not declared — an invalid input the contract says must be
reported via an error-status result. -/
def c1req : FlaskRequest :=
  ⟨"https://a.io/x", "/x", "https://a.io/x", "POST", .obj []⟩

/-- C1: the code raises `KeyError` (from `self.schema["paths"][path]`) on an
unknown path instead of returning an error-status result, so `validate` does
propagate failures for invalid input. -/
theorem validate_unknown_path_raises_key_error :
    validate c1schema c1req = .error (.keyError "/x") := rfl

/-- Schema for C2's failing input: path `/users` declared with method `get`
only. -/
def c2schema : Json :=
  .obj [("servers", .arr [.obj [("url", .str "https://b.io")]]),
        ("paths", .obj [("/users", .obj [("get",
          .obj [("requestBody", .obj [])])])])]

/-- Request for C2's failing input: declared path, undeclared method
(`POST` where only `get` exists). -/
def c2req : FlaskRequest :=
  ⟨"https://b.io/users", "/users", "https://b.io/users", "POST", .obj []⟩

/-- C2: with a matching server and a path that is present but whose entry
lacks the method, the code raises `KeyError "paths"` (from
`_get_request_schema`'s `request_schema["paths"]` lookup on the path entry)
instead of returning `InvalidRequestMethod`. -/
theorem validate_absent_method_raises_key_error :
    validate c2schema c2req = .error (.keyError "paths") := rfl

/-- Schema for C4's failing input: the spec's own example shape — `/users`
with `post` requiring an `email` body property. -/
def c4schema : Json :=
  .obj [("servers", .arr [.obj [("url", .str "https://c.io")]]),
        ("paths", .obj [("/users", .obj [("post",
          .obj [("requestBody", .obj [("required",
            .arr [.str "email"])])])])])]

/-- Request for C4's failing input: fully valid per the claim — matching
server, declared path and method, body holding the required property. -/
def c4req : FlaskRequest :=
  ⟨"https://c.io/users", "/users", "https://c.io/users", "POST",
   .obj [("email", .str "a@b.com")]⟩

/-- C4: on a fully valid request the code raises `KeyError "paths"` (the
path entry has no `"paths"` key for `_get_request_schema` to read) instead
of returning success with data `None`. -/
theorem validate_valid_request_raises_key_error :
    validate c4schema c4req = .error (.keyError "paths") := rfl

/-- Schema for C5's failing input, shaped so the body validator is actually
reached: the path entry nests its methods under an extra `"paths"` key,
matching what `_get_request_schema` reads. -/
def c5schema : Json :=
  .obj [("servers", .arr [.obj [("url", .str "https://d.io")]]),
        ("paths", .obj [("/users", .obj [("paths", .obj [("post",
          .obj [("requestBody", .obj [("required",
            .arr [.str "email"])])])])])])]

/-- Request for C5's failing input: declared path and method, body missing
the required `email` property. -/
def c5req : FlaskRequest :=
  ⟨"https://d.io/users", "/users", "https://d.io/users", "POST", .obj []⟩

/-- C5: once path and method resolve, `_validate_request_body` raises
`NotImplementedError` — a request missing a required property never gets the
claimed `InvalidRequestBody` result with the property under `missing`. -/
theorem validate_missing_property_raises_not_implemented :
    validate c5schema c5req = .error .notImplementedError := rfl
